import Mathlib

/-!
Shallow embedding of `simple_dsl.py` (an English-word arithmetic DSL):
lexicon tables, regex tokenizer, shunting-yard parser to RPN, stack
evaluator over Python's `int | float` values, and the line-oriented
statement runner.  Each definition is annotated with the source lines it
translates.  Modelling conventions:

* Python `int` is `ℤ`; Python `float` is modelled by the exact rational
  the operation would ideally produce (all claims checked here involve
  only values that are exactly representable, or only the `int`/`float`
  distinction itself).
* Python exceptions become the `DslError` sum; fallible functions return
  `Except DslError _`.
* The tokenizer's `while` loop is written with an explicit fuel
  parameter so that every definition is structural (and hence evaluates
  by `rfl`/`decide`); the theorem `c10_tokenizer_terminates` proves that
  the fuel bound used by `tokenize_expr` is always sufficient, which is
  exactly the termination argument for the Python loop.
-/

namespace SimpleDsl

/-- Source lines 9-15: the number-word table `NUM_WORDS`. -/
def NUM_WORDS : String → Option Nat
  | "zero" => some 0
  | "one" => some 1
  | "two" => some 2
  | "three" => some 3
  | "four" => some 4
  | "five" => some 5
  | "six" => some 6
  | "seven" => some 7
  | "eight" => some 8
  | "nine" => some 9
  | "ten" => some 10
  | "eleven" => some 11
  | "twelve" => some 12
  | "thirteen" => some 13
  | "fourteen" => some 14
  | "fifteen" => some 15
  | "sixteen" => some 16
  | "seventeen" => some 17
  | "eighteen" => some 18
  | "nineteen" => some 19
  | "twenty" => some 20
  | _ => none

/-- Source lines 18-24: the operator-word table `OP_WORDS`. -/
def OP_WORDS : String → Option String
  | "plus" => some "+"
  | "minus" => some "-"
  | "times" => some "*"
  | "divided_by" => some "/"
  | "power" => some "**"
  | _ => none

/-- Source lines 27-33: the `PRECEDENCE` table, mapping an operator
symbol to its (precedence, associativity) pair.  Looking up a missing
key raises `KeyError` in Python, hence the `Option`. -/
def PRECEDENCE : String → Option (Nat × String)
  | "**" => some (4, "right")
  | "*" => some (3, "left")
  | "/" => some (3, "left")
  | "+" => some (2, "left")
  | "-" => some (2, "left")
  | _ => none

/-- Source line 39: the closed set of token kinds. -/
inductive TokenKind where
  | NUM
  | ID
  | OP
  | LPAREN
  | RPAREN
  | EQ
  deriving DecidableEq, Repr

/-- Source lines 37-40: the `Token` dataclass. -/
structure Token where
  kind : TokenKind
  value : String
  deriving DecidableEq, Repr

/-- Python exceptions raised by the program.  Constructor names follow
the Python exception classes.  `UnmodelledFloatPow` is a model
boundary, not a Python exception: `**` with a fractional exponent
escapes in Python to floating-point (possibly complex) exponentiation,
whose inexact result is outside this exact numeric model; no claim
depends on that branch. -/
inductive DslError where
  | SyntaxError (msg : String)
  | NameError (msg : String)
  | KeyError (key : String)
  | ValueError (msg : String)
  | ZeroDivisionError
  | UnmodelledFloatPow
  deriving DecidableEq, Repr

/-- Python `\s` for the ASCII range (source line 44; the tokenizer's
inputs of interest are ASCII). -/
def isPySpace (c : Char) : Bool :=
  c = ' ' || c = '\t' || c = '\n' || c = '\r' || c = '\x0b' || c = '\x0c'

/-- Leading character of the `ID` alternative `[A-Za-z_]` (source line 48). -/
def isIdStart (c : Char) : Bool :=
  ('A' ≤ c && c ≤ 'Z') || ('a' ≤ c && c ≤ 'z') || c = '_'

/-- Continuation character of the `ID` alternative `[A-Za-z_0-9]` (source line 48). -/
def isIdCont (c : Char) : Bool :=
  isIdStart c || ('0' ≤ c && c ≤ '9')

/-- Names of the alternatives of `TOKEN_RE` (source lines 42-51). -/
inductive MatchKind where
  | WS
  | LPAREN
  | RPAREN
  | EQ
  | ID
  deriving DecidableEq, Repr

/-- Source lines 42-51 and 61: `TOKEN_RE.match(expr, i)`.  The regex
tries its alternatives in order at the current position; `WS` and `ID`
are greedy.  Returns the alternative name, the matched text, and the
remaining input, or `none` when no alternative matches. -/
def matchAt : List Char → Option (MatchKind × List Char × List Char)
  | [] => none
  | c :: cs =>
    if isPySpace c then
      some (MatchKind.WS, c :: cs.takeWhile isPySpace, cs.dropWhile isPySpace)
    else if c = '(' then
      some (MatchKind.LPAREN, [c], cs)
    else if c = ')' then
      some (MatchKind.RPAREN, [c], cs)
    else if c = '=' then
      some (MatchKind.EQ, [c], cs)
    else if isIdStart c then
      some (MatchKind.ID, c :: cs.takeWhile isIdCont, cs.dropWhile isIdCont)
    else
      none

/-- Source lines 69-88: the per-match dispatch of `tokenize_expr`.
Whitespace yields no token (`continue`); an identifier is lowercased
and looked up in `NUM_WORDS` first, then `OP_WORDS` (Python `str`
formatting of the number uses the canonical decimal `toString`). -/
def tokstep (kind : MatchKind) (text : List Char) : Option Token :=
  match kind with
  | MatchKind.WS => none
  | MatchKind.LPAREN => some ⟨TokenKind.LPAREN, ⟨text⟩⟩
  | MatchKind.RPAREN => some ⟨TokenKind.RPAREN, ⟨text⟩⟩
  | MatchKind.EQ => some ⟨TokenKind.EQ, ⟨text⟩⟩
  | MatchKind.ID =>
    let w : String := ⟨text.map Char.toLower⟩
    match NUM_WORDS w with
    | some n => some ⟨TokenKind.NUM, toString n⟩
    | none =>
      match OP_WORDS w with
      | some sym => some ⟨TokenKind.OP, sym⟩
      | none => some ⟨TokenKind.ID, ⟨text⟩⟩

/-- Source lines 58-90: the scanning loop of `tokenize_expr`, with the
scan position `i` threaded for the error message.  The `fuel` parameter
makes the recursion structural; `none` means the fuel ran out, which
`c10_tokenizer_terminates` proves impossible for the bound used by
`tokenize_expr` (each regex match consumes at least one character, so
the loop performs at most `length + 1` iterations — the Python loop
terminates for the same reason). -/
def tokenize_fuel : Nat → Nat → List Char → Option (Except DslError (List Token))
  | 0, _, _ => none
  | _ + 1, _, [] => some (Except.ok [])
  | fuel + 1, i, c :: cs =>
    match matchAt (c :: cs) with
    | none =>
      some (Except.error (DslError.SyntaxError
        ("Unexpected character at " ++ toString i ++ ": " ++ String.mk [c])))
    | some (kind, text, rest) =>
      match tokstep kind text with
      | none => tokenize_fuel fuel (i + text.length) rest
      | some tok =>
        match tokenize_fuel fuel (i + text.length) rest with
        | none => none
        | some (Except.error e) => some (Except.error e)
        | some (Except.ok ts) => some (Except.ok (tok :: ts))

/-- Source lines 53-90: `tokenize_expr`.  The fuel `length + 1` is
provably sufficient (`c10_tokenizer_terminates`), so the fallback
branch is dead code. -/
def tokenize_expr (expr : String) : Except DslError (List Token) :=
  match tokenize_fuel (expr.data.length + 1) 0 expr.data with
  | some r => r
  | none => Except.error (DslError.SyntaxError "fuel exhausted (provably unreachable)")

/-- Source lines 104-110: the inner `while` loop of the `OP` case of
`to_rpn`.  Arguments are (stack, out); the stack's top is the list
head.  Pops while the top is an operator satisfying the
associativity/precedence condition of line 107; a stacked operator
missing from `PRECEDENCE` raises `KeyError` in Python (line 106). -/
def shunt_pops (p1 : Nat) (a1 : String) :
    List Token → List Token → Except DslError (List Token × List Token)
  | [], out => Except.ok (out, [])
  | top :: rest, out =>
    if top.kind = TokenKind.OP then
      match PRECEDENCE top.value with
      | none => Except.error (DslError.KeyError top.value)
      | some (p2, _) =>
        if (a1 = "left" ∧ p1 ≤ p2) ∨ (a1 = "right" ∧ p1 < p2) then
          shunt_pops p1 a1 rest (out ++ [top])
        else
          Except.ok (out, top :: rest)
    else
      Except.ok (out, top :: rest)

/-- Source lines 115-116: the `while` loop of the `RPAREN` case of
`to_rpn`: pop-and-emit until the stack is empty or its top is a left
parenthesis.  Arguments are (stack, out); returns (out, stack). -/
def rparen_pops : List Token → List Token → List Token × List Token
  | [], out => (out, [])
  | top :: rest, out =>
    if top.kind ≠ TokenKind.LPAREN then
      rparen_pops rest (out ++ [top])
    else
      (out, top :: rest)

/-- Source lines 123-126: the final drain of `to_rpn`: pop the
remaining stack to the output, failing on any leftover parenthesis.
Arguments are (stack, out). -/
def final_pops : List Token → List Token → Except DslError (List Token)
  | [], out => Except.ok out
  | top :: rest, out =>
    if top.kind = TokenKind.LPAREN ∨ top.kind = TokenKind.RPAREN then
      Except.error (DslError.SyntaxError "Mismatched parentheses")
    else
      final_pops rest (out ++ [top])

/-- Source lines 98-121: the main token loop of `to_rpn`. -/
def to_rpn_loop : List Token → List Token → List Token → Except DslError (List Token × List Token)
  | [], out, stack => Except.ok (out, stack)
  | t :: ts, out, stack =>
    if t.kind = TokenKind.NUM ∨ t.kind = TokenKind.ID then
      to_rpn_loop ts (out ++ [t]) stack
    else if t.kind = TokenKind.OP then
      match PRECEDENCE t.value with
      | none => Except.error (DslError.KeyError t.value)
      | some (p1, a1) =>
        match shunt_pops p1 a1 stack out with
        | Except.error e => Except.error e
        | Except.ok (out2, stack2) => to_rpn_loop ts out2 (t :: stack2)
    else if t.kind = TokenKind.LPAREN then
      to_rpn_loop ts out (t :: stack)
    else if t.kind = TokenKind.RPAREN then
      let pr := rparen_pops stack out
      match pr.2 with
      | [] => Except.error (DslError.SyntaxError "Mismatched parentheses")
      | top :: rest2 =>
        if top.kind = TokenKind.LPAREN then
          to_rpn_loop ts pr.1 rest2
        else
          Except.error (DslError.SyntaxError "Mismatched parentheses")
    else
      Except.error (DslError.SyntaxError "Unexpected token in expression")

/-- Source lines 94-128: `to_rpn`, the shunting-yard conversion of an
infix token sequence to RPN. -/
def to_rpn (tokens : List Token) : Except DslError (List Token) :=
  match to_rpn_loop tokens [] [] with
  | Except.error e => Except.error e
  | Except.ok (out, stack) => final_pops stack out

/-- Python's runtime numeric values for this program: the source
annotates them as `int | float` (lines 132, 169, 176).  A `float`
payload is the exact rational of the ideal result (see the module
comment). -/
inductive Value where
  | int (z : ℤ)
  | float (q : ℚ)
  deriving DecidableEq, Repr

deriving instance DecidableEq for Except

/-- Numeric content of a value, as an exact rational. -/
def Value.toQ : Value → ℚ
  | Value.int z => (z : ℚ)
  | Value.float q => q

/-- Integer power with a natural exponent (Python `a ** b` on
non-negative integer `b`). -/
def intPow (a : ℤ) : Nat → ℤ
  | 0 => 1
  | n + 1 => intPow a n * a

/-- Rational power with a natural exponent. -/
def ratNpow (a : ℚ) : Nat → ℚ
  | 0 => 1
  | n + 1 => ratNpow a n * a

/-- Rational power with an integer exponent. -/
def ratPowInt (a : ℚ) (n : ℤ) : ℚ :=
  if 0 ≤ n then ratNpow a n.toNat else (ratNpow a (-n).toNat)⁻¹

/-- Python `a + b` on `int | float`: `int` when both operands are
`int`, `float` otherwise (source line 151). -/
def vadd (a b : Value) : Value :=
  match a, b with
  | Value.int x, Value.int y => Value.int (x + y)
  | _, _ => Value.float (a.toQ + b.toQ)

/-- Python `a - b` on `int | float` (source line 153). -/
def vsub (a b : Value) : Value :=
  match a, b with
  | Value.int x, Value.int y => Value.int (x - y)
  | _, _ => Value.float (a.toQ - b.toQ)

/-- Python `a * b` on `int | float` (source line 155). -/
def vmul (a b : Value) : Value :=
  match a, b with
  | Value.int x, Value.int y => Value.int (x * y)
  | _, _ => Value.float (a.toQ * b.toQ)

/-- Python true division `a / b` (source line 157): always a `float`,
raising `ZeroDivisionError` on a zero divisor. -/
def vdiv (a b : Value) : Except DslError Value :=
  if b.toQ = 0 then Except.error DslError.ZeroDivisionError
  else Except.ok (Value.float (a.toQ / b.toQ))

/-- Python `a ** b` (source line 159).  On two `int`s: an `int` for a
non-negative exponent; `ZeroDivisionError` for `0` to a negative
exponent; otherwise a `float`.  With a `float` involved, an integral
exponent is modelled exactly; a fractional exponent is the
`UnmodelledFloatPow` boundary (see `DslError`). -/
def vpow (a b : Value) : Except DslError Value :=
  match a, b with
  | Value.int x, Value.int y =>
    if 0 ≤ y then Except.ok (Value.int (intPow x y.toNat))
    else if x = 0 then Except.error DslError.ZeroDivisionError
    else Except.ok (Value.float (ratPowInt (x : ℚ) y))
  | _, _ =>
    if (b.toQ).den = 1 then
      if a.toQ = 0 ∧ (b.toQ).num < 0 then Except.error DslError.ZeroDivisionError
      else Except.ok (Value.float (ratPowInt a.toQ (b.toQ).num))
    else Except.error DslError.UnmodelledFloatPow

/-- Source lines 150-161: the operator dispatch of `eval_rpn`, applied
to the two popped operands (`a` left, `b` right). -/
def apply_op (op : String) (a b : Value) : Except DslError Value :=
  if op = "+" then Except.ok (vadd a b)
  else if op = "-" then Except.ok (vsub a b)
  else if op = "*" then Except.ok (vmul a b)
  else if op = "/" then vdiv a b
  else if op = "**" then vpow a b
  else Except.error (DslError.SyntaxError ("Unknown operator: " ++ op))

/-- The variable environment `dict[str, int | float]`, as an
association list keyed by the first occurrence of a name. -/
abbrev Env := List (String × Value)

/-- Python `t.value in env` / `env[t.value]`: dictionary lookup. -/
def lookupEnv : Env → String → Option Value
  | [], _ => none
  | (k, v) :: rest, name => if k = name then some v else lookupEnv rest name

/-- Python `env[name] = val`: dictionary update, overwriting an
existing binding and appending a new one otherwise. -/
def setEnv : Env → String → Value → Env
  | [], name, v => [(name, v)]
  | (k, w) :: rest, name, v =>
    if k = name then (name, v) :: rest else (k, w) :: setEnv rest name v

/-- Decimal digit accumulator for `pyInt?`. -/
def digitsVal : List Char → Nat → Option Nat
  | [], acc => some acc
  | c :: cs, acc =>
    if '0' ≤ c && c ≤ '9' then digitsVal cs (acc * 10 + (c.toNat - '0'.toNat))
    else none

/-- Python `int(s)` (source line 142), for a plain decimal string with
an optional sign — the only shapes the program produces (`NUM` token
payloads are `str(NUM_WORDS[w])`).  A non-numeric string raises
`ValueError` in Python, hence the `Option`. -/
def pyInt? (s : String) : Option ℤ :=
  match s.data with
  | [] => none
  | '-' :: rest =>
    match rest with
    | [] => none
    | _ => (digitsVal rest 0).map (fun n => -(n : ℤ))
  | '+' :: rest =>
    match rest with
    | [] => none
    | _ => (digitsVal rest 0).map (fun n => (n : ℤ))
  | l => (digitsVal l 0).map (fun n => (n : ℤ))

/-- Source lines 135-138: `pop_num`, popping the value stack (head is
the top), with `SyntaxError` on an empty stack. -/
def pop_num : List Value → Except DslError (Value × List Value)
  | [] => Except.error (DslError.SyntaxError "Not enough values in expression")
  | v :: rest => Except.ok (v, rest)

/-- Source lines 140-163: the token loop of `eval_rpn`, in
state-passing style: the environment (which the loop only reads) is
threaded through and returned alongside the result on every path. -/
def eval_rpn_loop : List Token → List Value → Env → Except DslError (List Value) × Env
  | [], st, env => (Except.ok st, env)
  | t :: ts, st, env =>
    if t.kind = TokenKind.NUM then
      match pyInt? t.value with
      | some n => eval_rpn_loop ts (Value.int n :: st) env
      | none => (Except.error (DslError.ValueError t.value), env)
    else if t.kind = TokenKind.ID then
      match lookupEnv env t.value with
      | none => (Except.error (DslError.NameError ("Undefined variable: " ++ t.value)), env)
      | some v => eval_rpn_loop ts (v :: st) env
    else if t.kind = TokenKind.OP then
      match pop_num st with
      | Except.error e => (Except.error e, env)
      | Except.ok (b, st1) =>
        match pop_num st1 with
        | Except.error e => (Except.error e, env)
        | Except.ok (a, st2) =>
          match apply_op t.value a b with
          | Except.error e => (Except.error e, env)
          | Except.ok v => eval_rpn_loop ts (v :: st2) env
    else
      (Except.error (DslError.SyntaxError "Unexpected token in RPN"), env)

/-- Source lines 132-167: `eval_rpn`.  After the loop, exactly one
value must remain on the stack (lines 165-167). -/
def eval_rpn (rpn : List Token) (env : Env) : Except DslError Value × Env :=
  match eval_rpn_loop rpn [] env with
  | (Except.error e, env1) => (Except.error e, env1)
  | (Except.ok st, env1) =>
    match st with
    | [v] => (Except.ok v, env1)
    | _ => (Except.error (DslError.SyntaxError "Expression did not reduce to a single value"), env1)

/-- Source lines 169-172: `eval_expr` = tokenize, parse, evaluate. -/
def eval_expr (expr : String) (env : Env) : Except DslError Value × Env :=
  match tokenize_expr expr with
  | Except.error e => (Except.error e, env)
  | Except.ok tokens =>
    match to_rpn tokens with
    | Except.error e => (Except.error e, env)
    | Except.ok rpn => eval_rpn rpn env

/-- Python `s.startswith(p)`, on character lists: first argument the
string, second the candidate leading text. -/
def listStarts : List Char → List Char → Bool
  | _, [] => true
  | [], _ :: _ => false
  | c :: cs, p :: ps => c = p && listStarts cs ps

/-- Python `s.startswith(p)` on strings. -/
def strStarts (s p : String) : Bool :=
  listStarts s.data p.data

/-- Python `s.lower()` (ASCII range). -/
def toLowerStr (s : String) : String :=
  ⟨s.data.map Char.toLower⟩

/-- Python `s.strip()`: remove leading and trailing whitespace. -/
def pyStrip (s : String) : String :=
  ⟨((s.data.dropWhile isPySpace).reverse.dropWhile isPySpace).reverse⟩

/-- Python `line.split("=", 1)` when `"=" in line`: the characters
before the first `'='` and the characters after it. -/
def splitAtFirstEq : List Char → List Char × List Char
  | [] => ([], [])
  | c :: cs =>
    if c = '=' then ([], cs)
    else
      let p := splitAtFirstEq cs
      (c :: p.1, p.2)

/-- Source line 198: `re.fullmatch` against `[A-Za-z_][A-Za-z_0-9]*`. -/
def fullmatchId (s : String) : Bool :=
  match s.data with
  | [] => false
  | c :: cs => isIdStart c && cs.all isIdCont

/-- Python `program.splitlines()`, modelled for `'\n'` separators (the
only separator the claims exercise; Python also splits on `\r` and
other line boundaries, and drops a final empty line — which the runner
would skip as blank anyway). -/
def splitLinesAux : List Char → List Char → List String
  | [], acc => [⟨acc.reverse⟩]
  | c :: cs, acc =>
    if c = '\n' then ⟨acc.reverse⟩ :: splitLinesAux cs []
    else splitLinesAux cs (c :: acc)

/-- Python `program.splitlines()` (see `splitLinesAux`). -/
def pySplitlines (s : String) : List String :=
  splitLinesAux s.data []

/-- Source lines 183-204: the per-line step of `run_dsl`.  Returns the
updated environment and the value emitted to the output collaborator,
if the line was a print statement.  Python formats the offending line
of the two error messages with `repr`; the model uses the raw text. -/
def run_line (lineno : Nat) (raw : String) (env : Env) : Except DslError (Env × Option Value) :=
  let line := pyStrip raw
  if line.data.isEmpty || strStarts line "#" then
    Except.ok (env, none)
  else if strStarts (toLowerStr line) "print " then
    match (eval_expr (pyStrip ⟨line.data.drop 6⟩) env).1 with
    | Except.error e => Except.error e
    | Except.ok v => Except.ok (env, some v)
  else if line.data.contains '=' then
    let p := splitAtFirstEq line.data
    let name := pyStrip ⟨p.1⟩
    if fullmatchId name then
      match (eval_expr (pyStrip ⟨p.2⟩) env).1 with
      | Except.error e => Except.error e
      | Except.ok v => Except.ok (setEnv env name v, none)
    else
      Except.error (DslError.SyntaxError
        ("Line " ++ toString lineno ++ ": Invalid variable name: " ++ name))
  else
    Except.error (DslError.SyntaxError
      ("Line " ++ toString lineno ++ ": Unknown statement: " ++ line))

/-- Source lines 183-204: the line loop of `run_dsl`, accumulating the
printed outputs in order. -/
def run_dsl_lines : List String → Nat → Env → List Value → Except DslError (Env × List Value)
  | [], _, env, outs => Except.ok (env, outs)
  | l :: ls, lineno, env, outs =>
    match run_line lineno l env with
    | Except.error e => Except.error e
    | Except.ok (env2, none) => run_dsl_lines ls (lineno + 1) env2 outs
    | Except.ok (env2, some v) => run_dsl_lines ls (lineno + 1) env2 (outs ++ [v])

/-- Source lines 176-206: `run_dsl`, returning the final environment
together with the sequence of printed values. -/
def run_dsl (program : String) : Except DslError (Env × List Value) :=
  run_dsl_lines (pySplitlines program) 1 [] []

/-- The spec's wording of the print-statement condition (section 4.4
step 2): the trimmed line "starts with the case-insensitive keyword
`print` followed by whitespace".  Used to compare the spec's condition
with the code's (`startswith("print ")`, a literal space). -/
def specPrintThenWS (l : List Char) : Bool :=
  listStarts (l.map Char.toLower) ("print".data) &&
    (match l.drop 5 with
     | c :: _ => isPySpace c
     | [] => false)

/-- Tokens legal in RPN output: the invariant of claim C2. -/
def OutKindsOk (out : List Token) : Prop :=
  ∀ t ∈ out, t.kind = TokenKind.NUM ∨ t.kind = TokenKind.ID ∨ t.kind = TokenKind.OP

/-- Tokens that can sit on the shunting-yard operator stack. -/
def StackKindsOk (stack : List Token) : Prop :=
  ∀ t ∈ stack, t.kind = TokenKind.OP ∨ t.kind = TokenKind.LPAREN

/-! ## Helper lemmas -/

/-- Dropping a prefix never lengthens a list. -/
theorem length_dropWhile_le (p : Char → Bool) :
    ∀ l : List Char, (l.dropWhile p).length ≤ l.length := by
  intro l
  induction l with
  | nil => simp [List.dropWhile]
  | cons c cs ih =>
    by_cases h : p c
    · simp only [List.dropWhile, h]
      exact Nat.le_trans ih (Nat.le_succ _)
    · simp [List.dropWhile, h]

/-- Every successful regex match consumes at least one character: the
matched text is non-empty and the remaining input is strictly shorter. -/
theorem matchAt_progress (cs : List Char) (k : MatchKind) (t r : List Char)
    (h : matchAt cs = some (k, t, r)) : t ≠ [] ∧ r.length < cs.length := by
  cases cs with
  | nil => simp [matchAt] at h
  | cons c cs' =>
    simp only [matchAt] at h
    split_ifs at h <;>
      (injection h with h'
       injection h' with hk h''
       injection h'' with ht hr
       subst ht
       subst hr
       refine ⟨by simp, ?_⟩) <;>
      simp only [List.length_cons] <;>
      exact Nat.lt_succ_of_le (by first
        | exact length_dropWhile_le _ _
        | exact Nat.le_refl _)

/-- The environment component returned by the evaluator loop is always
the environment it was given. -/
theorem eval_rpn_loop_env (rpn : List Token) :
    ∀ (st : List Value) (env : Env), (eval_rpn_loop rpn st env).2 = env := by
  induction rpn with
  | nil => intro st env; rfl
  | cons t ts ih =>
    intro st env
    simp only [eval_rpn_loop]
    repeat' split
    all_goals first
      | rfl
      | exact ih _ _

/-! ## Claim theorems -/

/-- Claim C1: the power operator is right-associative — evaluating
`"two power three power two"` against any environment returns the
integer 512 = 2^(3^2), not 64 = (2^3)^2. -/
theorem c1_power_right_assoc (env : Env) :
    (eval_expr "two power three power two" env).1 = Except.ok (Value.int 512) := rfl

/-- Claim C9: multiplication binds tighter than addition — evaluating
`"two plus three times four"` against any environment returns 14. -/
theorem c9_mul_binds_tighter (env : Env) :
    (eval_expr "two plus three times four" env).1 = Except.ok (Value.int 14) := rfl

/-- Claim C6: unbalanced parentheses fail with `SyntaxError` in both
directions: an unclosed `(` is caught by the final stack drain, and a
stray `)` is caught when no matching `(` is on the stack. -/
theorem c6_mismatched_parens :
    (tokenize_expr "( one plus two").bind to_rpn
        = Except.error (DslError.SyntaxError "Mismatched parentheses") ∧
    (tokenize_expr "one plus two )").bind to_rpn
        = Except.error (DslError.SyntaxError "Mismatched parentheses") :=
  ⟨rfl, rfl⟩

/-- Claim C3: `eval_rpn` treats the environment as read-only — for
every RPN token sequence and environment, the environment returned
alongside the result (whether a value or an error) is the one passed
in. -/
theorem c3_env_read_only (rpn : List Token) (env : Env) :
    (eval_rpn rpn env).2 = env := by
  have h := eval_rpn_loop_env rpn [] env
  unfold eval_rpn
  split
  · next e env1 heq =>
    rw [heq] at h
    exact h
  · next st env1 heq =>
    rw [heq] at h
    split <;> exact h

/-- Claim C7: RPN evaluation fails with the malformed-expression
`SyntaxError`s exactly at the ill-formed-stack points: popping an
operand from an empty stack fails (and hence so does any operator token
reaching an empty stack), a final stack whose size is not exactly one
fails, and otherwise the single remaining value is returned. -/
theorem c7_malformed_stack :
    pop_num [] = Except.error (DslError.SyntaxError "Not enough values in expression") ∧
    (∀ (env : Env) (t : Token) (ts : List Token), t.kind = TokenKind.OP →
      (eval_rpn_loop (t :: ts) [] env).1
        = Except.error (DslError.SyntaxError "Not enough values in expression")) ∧
    (∀ (rpn : List Token) (env : Env) (st : List Value) (env2 : Env),
      eval_rpn_loop rpn [] env = (Except.ok st, env2) → st.length ≠ 1 →
      (eval_rpn rpn env).1
        = Except.error (DslError.SyntaxError "Expression did not reduce to a single value")) ∧
    (∀ (rpn : List Token) (env : Env) (v : Value) (env2 : Env),
      eval_rpn_loop rpn [] env = (Except.ok [v], env2) →
      (eval_rpn rpn env).1 = Except.ok v) := by
  refine ⟨rfl, ?_, ?_, ?_⟩
  · intro env t ts h
    simp [eval_rpn_loop, h, pop_num]
  · intro rpn env st env2 hloop hlen
    unfold eval_rpn
    rw [hloop]
    cases st with
    | nil => rfl
    | cons v tl =>
      cases tl with
      | nil => exact absurd rfl hlen
      | cons w tl2 => rfl
  · intro rpn env v env2 hloop
    unfold eval_rpn
    rw [hloop]

/-- Witness for C7 at concrete inputs: an operator on an empty stack,
the empty RPN sequence (zero values left), and a single number. -/
theorem c7_malformed_stack_witness :
    (eval_rpn_loop [⟨TokenKind.OP, "+"⟩] [] []).1
        = Except.error (DslError.SyntaxError "Not enough values in expression") ∧
    (eval_rpn ([] : List Token) []).1
        = Except.error (DslError.SyntaxError "Expression did not reduce to a single value") ∧
    (eval_rpn [⟨TokenKind.NUM, "5"⟩] []).1 = Except.ok (Value.int 5) :=
  ⟨c7_malformed_stack.2.1 [] ⟨TokenKind.OP, "+"⟩ [] rfl,
   c7_malformed_stack.2.2.1 [] [] [] [] rfl (by decide),
   c7_malformed_stack.2.2.2 [⟨TokenKind.NUM, "5"⟩] [] (Value.int 5) [] rfl⟩

/-- Claim C8: evaluating an expression that is a single identifier
absent from the environment fails with `NameError` carrying the
variable's name. -/
theorem c8_undefined_variable (s : String) (name : String) (env : Env)
    (h1 : tokenize_expr s = Except.ok [⟨TokenKind.ID, name⟩])
    (h2 : lookupEnv env name = none) :
    (eval_expr s env).1
      = Except.error (DslError.NameError ("Undefined variable: " ++ name)) := by
  have hrpn : to_rpn [⟨TokenKind.ID, name⟩] = Except.ok [⟨TokenKind.ID, name⟩] := rfl
  have hloop : eval_rpn_loop [⟨TokenKind.ID, name⟩] [] env
      = (Except.error (DslError.NameError ("Undefined variable: " ++ name)), env) := by
    simp [eval_rpn_loop, h2]
  simp only [eval_expr, h1, hrpn, eval_rpn, hloop]

/-- Witness for C8: evaluating `"y"` against the empty environment
fails with `UndefinedVariable("y")`. -/
theorem c8_undefined_variable_witness :
    (eval_expr "y" []).1
      = Except.error (DslError.NameError ("Undefined variable: " ++ "y")) :=
  c8_undefined_variable "y" "y" [] rfl rfl

/-- The operator-popping loop preserves the output and stack kind
invariants. -/
theorem shunt_pops_inv (p1 : Nat) (a1 : String) :
    ∀ (stack out out2 stack2 : List Token),
      shunt_pops p1 a1 stack out = Except.ok (out2, stack2) →
      OutKindsOk out → StackKindsOk stack → OutKindsOk out2 ∧ StackKindsOk stack2 := by
  intro stack
  induction stack with
  | nil =>
    intro out out2 stack2 h ho hs
    simp only [shunt_pops, Except.ok.injEq, Prod.mk.injEq] at h
    obtain ⟨h1, h2⟩ := h
    subst h1
    subst h2
    exact ⟨ho, by intro t ht; simp at ht⟩
  | cons top rest ih =>
    intro out out2 stack2 h ho hs
    simp only [shunt_pops] at h
    split at h
    · split at h
      · exact absurd h (by simp)
      · next hop _ p2 a2 heq =>
        split at h
        · refine ih (out ++ [top]) out2 stack2 h ?_ ?_
          · intro t ht
            rcases List.mem_append.mp ht with hmem | hmem
            · exact ho t hmem
            · rw [List.mem_singleton.mp hmem]
              exact Or.inr (Or.inr hop)
          · intro t ht
            exact hs t (List.mem_cons_of_mem _ ht)
        · simp only [Except.ok.injEq, Prod.mk.injEq] at h
          obtain ⟨h1, h2⟩ := h
          subst h1
          subst h2
          exact ⟨ho, hs⟩
    · simp only [Except.ok.injEq, Prod.mk.injEq] at h
      obtain ⟨h1, h2⟩ := h
      subst h1
      subst h2
      exact ⟨ho, hs⟩

/-- The right-parenthesis drain preserves the invariants: everything it
moves to the output is an operator. -/
theorem rparen_pops_inv :
    ∀ (stack out out2 stack2 : List Token),
      rparen_pops stack out = (out2, stack2) →
      OutKindsOk out → StackKindsOk stack → OutKindsOk out2 ∧ StackKindsOk stack2 := by
  intro stack
  induction stack with
  | nil =>
    intro out out2 stack2 h ho hs
    simp only [rparen_pops, Prod.mk.injEq] at h
    obtain ⟨h1, h2⟩ := h
    subst h1
    subst h2
    exact ⟨ho, by intro t ht; simp at ht⟩
  | cons top rest ih =>
    intro out out2 stack2 h ho hs
    simp only [rparen_pops] at h
    split at h
    · next hne =>
      refine ih (out ++ [top]) out2 stack2 h ?_ ?_
      · intro t ht
        rcases List.mem_append.mp ht with hmem | hmem
        · exact ho t hmem
        · rw [List.mem_singleton.mp hmem]
          rcases hs top (List.mem_cons_self top rest) with hk | hk
          · exact Or.inr (Or.inr hk)
          · exact absurd hk hne
      · intro t ht
        exact hs t (List.mem_cons_of_mem _ ht)
    · simp only [Prod.mk.injEq] at h
      obtain ⟨h1, h2⟩ := h
      subst h1
      subst h2
      exact ⟨ho, hs⟩

/-- The final drain of `to_rpn` only moves operators to the output. -/
theorem final_pops_inv :
    ∀ (stack out res : List Token),
      final_pops stack out = Except.ok res →
      OutKindsOk out → StackKindsOk stack → OutKindsOk res := by
  intro stack
  induction stack with
  | nil =>
    intro out res h ho _
    simp only [final_pops, Except.ok.injEq] at h
    subst h
    exact ho
  | cons top rest ih =>
    intro out res h ho hs
    simp only [final_pops] at h
    split at h
    · exact absurd h (by simp)
    · next hnp =>
      refine ih (out ++ [top]) res h ?_ ?_
      · intro t ht
        rcases List.mem_append.mp ht with hmem | hmem
        · exact ho t hmem
        · rw [List.mem_singleton.mp hmem]
          rcases hs top (List.mem_cons_self top rest) with hk | hk
          · exact Or.inr (Or.inr hk)
          · exact absurd (Or.inl hk) hnp
      · intro t ht
        exact hs t (List.mem_cons_of_mem _ ht)

/-- The main shunting-yard loop preserves the invariants. -/
theorem to_rpn_loop_inv :
    ∀ (ts out stack out2 stack2 : List Token),
      to_rpn_loop ts out stack = Except.ok (out2, stack2) →
      OutKindsOk out → StackKindsOk stack → OutKindsOk out2 ∧ StackKindsOk stack2 := by
  intro ts
  induction ts with
  | nil =>
    intro out stack out2 stack2 h ho hs
    simp only [to_rpn_loop, Except.ok.injEq, Prod.mk.injEq] at h
    obtain ⟨h1, h2⟩ := h
    subst h1
    subst h2
    exact ⟨ho, hs⟩
  | cons t rest ih =>
    intro out stack out2 stack2 h ho hs
    simp only [to_rpn_loop] at h
    split at h
    · next hni =>
      refine ih (out ++ [t]) stack out2 stack2 h ?_ hs
      intro u hu
      rcases List.mem_append.mp hu with hmem | hmem
      · exact ho u hmem
      · rw [List.mem_singleton.mp hmem]
        rcases hni with hk | hk
        · exact Or.inl hk
        · exact Or.inr (Or.inl hk)
    · split at h
      · split at h
        · exact absurd h (by simp)
        · next hop _ p1 a1 heq =>
          split at h
          · exact absurd h (by simp)
          · next o2 s2 hsh =>
            obtain ⟨ho2, hs2⟩ := shunt_pops_inv p1 a1 stack out o2 s2 hsh ho hs
            refine ih o2 (t :: s2) out2 stack2 h ho2 ?_
            intro u hu
            rcases List.mem_cons.mp hu with hmem | hmem
            · rw [hmem]
              exact Or.inl hop
            · exact hs2 u hmem
      · split at h
        · next hlp =>
          refine ih out (t :: stack) out2 stack2 h ho ?_
          intro u hu
          rcases List.mem_cons.mp hu with hmem | hmem
          · rw [hmem]
            exact Or.inr hlp
          · exact hs u hmem
        · split at h
          · split at h
            · exact absurd h (by simp)
            · next top rest2 hstk =>
              split at h
              · next htl =>
                obtain ⟨hro, hrs⟩ := rparen_pops_inv stack out
                    (rparen_pops stack out).1 (rparen_pops stack out).2 rfl ho hs
                refine ih (rparen_pops stack out).1 rest2 out2 stack2 h hro ?_
                intro u hu
                refine hrs u ?_
                rw [hstk]
                exact List.mem_cons_of_mem _ hu
              · exact absurd h (by simp)
          · exact absurd h (by simp)

/-- Claim C2: every token in an RPN sequence produced by `to_rpn` has
kind `NUM`, `ID`, or `OP`; no parenthesis or equals token survives
into the parser's output. -/
theorem c2_rpn_token_kinds (tokens out : List Token)
    (h : to_rpn tokens = Except.ok out) :
    ∀ t ∈ out, t.kind = TokenKind.NUM ∨ t.kind = TokenKind.ID ∨ t.kind = TokenKind.OP := by
  unfold to_rpn at h
  split at h
  · exact absurd h (by simp)
  · next out1 stack1 heq =>
    obtain ⟨ho, hs⟩ := to_rpn_loop_inv tokens [] [] out1 stack1 heq
      (by intro t ht; simp at ht) (by intro t ht; simp at ht)
    exact final_pops_inv stack1 out1 out h ho hs

/-- Witness for C2 at a concrete accepted input. -/
theorem c2_rpn_token_kinds_witness :
    (⟨TokenKind.NUM, "1"⟩ : Token).kind = TokenKind.NUM ∨
    (⟨TokenKind.NUM, "1"⟩ : Token).kind = TokenKind.ID ∨
    (⟨TokenKind.NUM, "1"⟩ : Token).kind = TokenKind.OP :=
  c2_rpn_token_kinds [⟨TokenKind.NUM, "1"⟩] [⟨TokenKind.NUM, "1"⟩] rfl
    ⟨TokenKind.NUM, "1"⟩ (by simp)

/-- Claim C10: tokenization terminates on every input.  Every
successful regex match consumes at least one character (so the scan
position strictly increases), and consequently the scanning loop
finishes within `length + 1` iterations: with any fuel above the input
length, `tokenize_fuel` never runs out (it either produces the token
list or raises the lex error immediately). -/
theorem c10_tokenizer_terminates :
    (∀ (cs : List Char) (k : MatchKind) (t r : List Char),
      matchAt cs = some (k, t, r) → t ≠ [] ∧ r.length < cs.length) ∧
    (∀ (f i : Nat) (cs : List Char), cs.length < f →
      (tokenize_fuel f i cs).isSome = true) := by
  refine ⟨matchAt_progress, ?_⟩
  intro f
  induction f with
  | zero =>
    intro i cs h
    exact absurd h (Nat.not_lt_zero _)
  | succ f ih =>
    intro i cs h
    cases cs with
    | nil => rfl
    | cons c cs' =>
      rcases hm : matchAt (c :: cs') with _ | ⟨k, t, r⟩
      · simp [tokenize_fuel, hm]
      · have hr := (matchAt_progress _ _ _ _ hm).2
        have hrf : r.length < f := Nat.lt_of_lt_of_le hr (Nat.lt_succ_iff.mp h)
        have hrec := ih (i + t.length) r hrf
        rcases ht : tokstep k t with _ | tok
        · simpa [tokenize_fuel, hm, ht] using hrec
        · rcases hq : tokenize_fuel f (i + t.length) r with _ | er
          · rw [hq] at hrec
            simp at hrec
          · rcases er with e | ts
            · simp [tokenize_fuel, hm, ht, hq]
            · simp [tokenize_fuel, hm, ht, hq]

/-- Witness for C10: a concrete one-character match and a concrete
in-fuel tokenization. -/
theorem c10_tokenizer_terminates_witness :
    ((['y'] : List Char) ≠ [] ∧ ([] : List Char).length < (['y'] : List Char).length) ∧
    (tokenize_fuel 2 0 ['y']).isSome = true :=
  ⟨c10_tokenizer_terminates.1 ['y'] MatchKind.ID ['y'] [] rfl,
   c10_tokenizer_terminates.2 2 0 ['y'] (by decide)⟩

/-- A line whose lowercasing starts with `"print "` is neither blank
nor a comment. -/
theorem print_cond_facts (l : List Char)
    (h : listStarts (l.map Char.toLower) ("print ".data) = true) :
    l.isEmpty = false ∧ listStarts l ("#".data) = false := by
  cases l with
  | nil => exact absurd h (by decide)
  | cons c r =>
    refine ⟨rfl, ?_⟩
    by_cases hc : c = '#'
    · subst hc
      rw [show ("print ".data) = ['p', 'r', 'i', 'n', 't', ' '] from rfl] at h
      simp only [List.map_cons, listStarts, Bool.and_eq_true, decide_eq_true_eq] at h
      exact absurd h.1 (by decide)
    · rw [show ("#".data) = ['#'] from rfl]
      simp [listStarts, hc]

/-- Claim C4 (amended): a trimmed non-blank, non-comment line whose
lowercasing starts with the six characters `"print "` (the keyword
followed by a literal space, which is the condition the code tests) is
run as a print statement: the remainder of the line is evaluated
against the current environment and the resulting value is emitted,
with evaluation errors propagated. -/
theorem c4_print_statement (lineno : Nat) (raw : String) (env : Env)
    (h : strStarts (toLowerStr (pyStrip raw)) "print " = true) :
    run_line lineno raw env =
      match (eval_expr (pyStrip ⟨(pyStrip raw).data.drop 6⟩) env).1 with
      | Except.error e => Except.error e
      | Except.ok v => Except.ok (env, some v) := by
  have hfc : listStarts ((pyStrip raw).data.map Char.toLower) ("print ".data) = true := h
  obtain ⟨he, hh⟩ := print_cond_facts (pyStrip raw).data hfc
  have hcond1 : ((pyStrip raw).data.isEmpty || strStarts (pyStrip raw) "#") = false := by
    have hh' : strStarts (pyStrip raw) "#" = false := hh
    rw [he, hh']
    rfl
  have hcond2 : strStarts (toLowerStr (pyStrip raw)) "print " = true := h
  simp only [run_line, hcond1, hcond2, Bool.false_eq_true, if_false, if_true]

/-- Witness for C4: `"print one"` prints the integer 1. -/
theorem c4_print_statement_witness :
    run_line 1 "print one" [] = Except.ok ([], some (Value.int 1)) := by
  rw [c4_print_statement 1 "print one" [] (by decide)]
  rfl

/-- Counterexample for C4 as stated: the stripped line `"print\tone"`
starts with the keyword `print` followed by whitespace (a tab) in the
spec's sense, yet the runner rejects it as an unknown statement
instead of printing — the code demands a literal space. -/
theorem c4_counterexample :
    specPrintThenWS (pyStrip "print\tone").data = true ∧
    run_dsl "print\tone"
      = Except.error (DslError.SyntaxError "Line 1: Unknown statement: print\tone") :=
  ⟨rfl, rfl⟩

/-- Claim C5 (amended): on two integer operands, `+`, `-` and `*`
always produce an integer, and `**` produces an integer whenever the
exponent is non-negative (a negative integer exponent escapes to a
float). -/
theorem c5_int_arithmetic (a b : ℤ) :
    apply_op "+" (Value.int a) (Value.int b) = Except.ok (Value.int (a + b)) ∧
    apply_op "-" (Value.int a) (Value.int b) = Except.ok (Value.int (a - b)) ∧
    apply_op "*" (Value.int a) (Value.int b) = Except.ok (Value.int (a * b)) ∧
    (0 ≤ b →
      apply_op "**" (Value.int a) (Value.int b)
        = Except.ok (Value.int (intPow a b.toNat))) := by
  refine ⟨rfl, rfl, rfl, fun h => ?_⟩
  show vpow (Value.int a) (Value.int b) = Except.ok (Value.int (intPow a b.toNat))
  simp only [vpow]
  rw [if_pos h]

/-- Witness for C5 at concrete operands 2 and 3. -/
theorem c5_int_arithmetic_witness :
    apply_op "+" (Value.int 2) (Value.int 3) = Except.ok (Value.int 5) ∧
    apply_op "-" (Value.int 2) (Value.int 3) = Except.ok (Value.int (-1)) ∧
    apply_op "*" (Value.int 2) (Value.int 3) = Except.ok (Value.int 6) ∧
    apply_op "**" (Value.int 2) (Value.int 3) = Except.ok (Value.int 8) := by
  obtain ⟨h1, h2, h3, h4⟩ := c5_int_arithmetic 2 3
  exact ⟨h1, h2, h3, h4 (by decide)⟩

/-- Counterexample for C5 as stated: `2 ** (0 - 1)` has two integer
operands yet evaluates to the float one-half — a non-integral result
from `**`, contradicting "only `/` may produce a non-integral value". -/
theorem c5_counterexample :
    (eval_expr "two power ( zero minus one )" []).1
      = Except.ok (Value.float (1 / 2)) ∧
    (∀ z : ℤ, Value.float ((1 : ℚ) / 2) ≠ Value.int z) ∧
    ((1 : ℚ) / 2).den ≠ 1 := by
  refine ⟨?_, ?_, by norm_num⟩
  · have h1 : (eval_expr "two power ( zero minus one )" []).1
        = Except.ok (Value.float (ratPowInt ((2 : ℤ) : ℚ) (-1))) := rfl
    rw [h1]
    norm_num [ratPowInt, ratNpow]
  · intro z hz
    exact Value.noConfusion hz
